import Mathlib

/-!
Verification of the authentication core of the smart-office-ai backend:
password hashing (`app/core/security.py`), JWT issue/verify, TOTP
enrollment, and the login flow (`app/api/v1/auth.py`), shallowly embedded
in Lean.  Cryptographic primitives (bcrypt, HMAC, the TOTP PRF) are
modelled ideally: a hash/signature is a record of what was hashed/signed,
which makes them collision-free and deterministic; malformed inputs are a
separate constructor so that parsing failures are represented.
-/

namespace SmartOffice

/-- UTF-8 encoding of one character as a list of byte values,
mirroring Python's `str.encode("utf-8")` per code point. -/
def utf8Bytes (c : Char) : List Nat :=
  let n := c.toNat
  if n < 0x80 then [n]
  else if n < 0x800 then
    [0xC0 ||| (n >>> 6), 0x80 ||| (n &&& 0x3F)]
  else if n < 0x10000 then
    [0xE0 ||| (n >>> 12), 0x80 ||| ((n >>> 6) &&& 0x3F), 0x80 ||| (n &&& 0x3F)]
  else
    [0xF0 ||| (n >>> 18), 0x80 ||| ((n >>> 12) &&& 0x3F),
     0x80 ||| ((n >>> 6) &&& 0x3F), 0x80 ||| (n &&& 0x3F)]

/-- Encoding of a whole string as UTF-8 byte values, Python's
`s.encode("utf-8")`. -/
def encodeUtf8 (s : String) : List Nat :=
  s.data.flatMap utf8Bytes

/-- Model of a bcrypt hash string.  A well-formed hash records the exact
bytes that were hashed (ideal collision-free hash; the per-call random
salt is abstracted away because `checkpw` recomputes under the stored
salt, so the verification outcome does not depend on it).  Any other
string is `malformed`, on which bcrypt raises. -/
inductive BcryptHash where
  | wellFormed (digest : List Nat)
  | malformed (s : String)
deriving DecidableEq, Repr

/-- Model of `bcrypt.hashpw(passwordBytes, salt)`: records the bytes. -/
def bcrypt_hashpw (passwordBytes : List Nat) : BcryptHash :=
  .wellFormed passwordBytes

/-- Model of `bcrypt.checkpw(passwordBytes, hashed)`: `none` models the
exception raised on a structurally invalid hash. -/
def bcrypt_checkpw (passwordBytes : List Nat) : BcryptHash → Option Bool
  | .wellFormed digest => some (passwordBytes == digest)
  | .malformed _ => none

/-- Function `get_password_hash` from `app/core/security.py`: truncates the UTF-8
bytes to 72 (bcrypt's input limit) and hashes. -/
def get_password_hash (password : String) : BcryptHash :=
  bcrypt_hashpw ((encodeUtf8 password).take 72)

/-- Function `verify_password` from `app/core/security.py`: truncates to 72 bytes,
calls `bcrypt.checkpw`, and converts any exception into `false`. -/
def verify_password (plain_password : String) (hashed_password : BcryptHash) : Bool :=
  match bcrypt_checkpw ((encodeUtf8 plain_password).take 72) hashed_password with
  | some b => b
  | none => false

/-- Process configuration (`app/core/config.py`).  `JWT_SECRET_KEY` has no
default; `JWT_ALGORITHM` defaults to HS256 and
`ACCESS_TOKEN_EXPIRE_MINUTES` to 30. -/
structure Settings where
  JWT_SECRET_KEY : String
  JWT_ALGORITHM : String
  ACCESS_TOKEN_EXPIRE_MINUTES : Nat
deriving DecidableEq, Repr

/-- JWT payload: the non-`exp` claims as an association list of string
claims (the code issues `{"sub": user.id, "email": user.email}`), plus the
optional `exp` claim in whole seconds since the epoch.  PyJWT serializes
datetimes to integer seconds. -/
structure Payload where
  data : List (String × String)
  exp : Option Nat
deriving DecidableEq, Repr

/-- Ideal model of the HMAC signature over a compact JWS: it records the
key, the header's algorithm and the payload that were signed, and verifies
only against exactly those. -/
structure Signature where
  key : String
  signedAlg : String
  signedPayload : Payload
deriving DecidableEq, Repr

/-- A presented token: either a structurally well-formed three-part JWS
(header algorithm, payload, signature) or malformed text that fails
parsing. -/
inductive Token where
  | wellFormed (alg : String) (payload : Payload) (sig : Signature)
  | malformed (s : String)
deriving DecidableEq, Repr

/-- Model of `jwt.encode(payload, key, algorithm)`: serializes and signs, producing
a well-formed token whose signature covers the header and payload. -/
def jwt_encode (payload : Payload) (key : String) (alg : String) : Token :=
  .wellFormed alg payload ⟨key, alg, payload⟩

/-- Model of `jwt.decode(token, key, algorithms)` evaluated at whole-second Unix
time `now`: `none` models the raised `InvalidTokenError` for malformed
structure, disallowed algorithm, or bad signature, and the
`ExpiredSignatureError` when the `exp` claim is at or before `now`
(PyJWT rejects `exp <= now` with zero leeway; a payload without `exp` is
not checked for expiry). -/
def jwt_decode (token : Token) (key : String) (algs : List String) (now : Nat) :
    Option Payload :=
  match token with
  | .malformed _ => none
  | .wellFormed alg payload sig =>
    if algs.contains alg && sig == ⟨key, alg, payload⟩ then
      match payload.exp with
      | some e => if e ≤ now then none else some payload
      | none => some payload
    else none

/-- Function `create_access_token` from `app/core/security.py`: copies `data`, sets
`exp` to `now + expires_delta` (or `now` plus the configured default, in
seconds) and signs with the process key and algorithm.  `now` is the
current whole-second Unix time and `expires_delta` is in seconds. -/
def create_access_token (s : Settings) (data : List (String × String))
    (expires_delta : Option Nat) (now : Nat) : Token :=
  let expire := match expires_delta with
    | some d => now + d
    | none => now + s.ACCESS_TOKEN_EXPIRE_MINUTES * 60
  jwt_encode ⟨data, some expire⟩ s.JWT_SECRET_KEY s.JWT_ALGORITHM

/-- Function `decode_access_token` from `app/core/security.py`: decodes with the
process key and algorithm list `[JWT_ALGORITHM]`, turning every raised
`InvalidTokenError`/`ValueError` into the single opaque `none`. -/
def decode_access_token (s : Settings) (token : Token) (now : Nat) : Option Payload :=
  jwt_decode token s.JWT_SECRET_KEY [s.JWT_ALGORITHM] now

/-- The token fails structural parsing. -/
def tokenMalformed : Token → Bool
  | .malformed _ => true
  | .wellFormed _ _ _ => false

/-- The token is well-formed, its header algorithm is the process
algorithm, and its signature verifies under the process key. -/
def signatureOk (s : Settings) : Token → Bool
  | .malformed _ => false
  | .wellFormed alg payload sig =>
    [s.JWT_ALGORITHM].contains alg && sig == ⟨s.JWT_SECRET_KEY, alg, payload⟩

/-- The token carries an `exp` claim at or before `now`. -/
def tokenExpired (token : Token) (now : Nat) : Bool :=
  match token with
  | .malformed _ => false
  | .wellFormed _ payload _ =>
    match payload.exp with
    | some e => e ≤ now
    | none => false

/-- The base-32 alphabet accepted by `base64.b32decode` (A-Z, 2-7, with
`=` padding), which pyotp uses to decode the secret. -/
def isBase32Char (c : Char) : Bool :=
  ("ABCDEFGHIJKLMNOPQRSTUVWXYZ234567=".data).contains c

/-- A secret that `base64.b32decode` accepts; anything else raises inside
pyotp and is turned into `false` by `verify_totp`. -/
def validBase32Secret (s : String) : Bool :=
  s.length != 0 && s.data.all isBase32Char

/-- Numeric value of a string's bytes, used to feed the ideal PRF below. -/
def strVal (s : String) : Nat :=
  (encodeUtf8 s).foldl (fun a b => a * 256 + b) 0

/-- Left-pad a numeral to 6 digits, as pyotp's `generate_otp` does. -/
def padTo6 (n : Nat) : String :=
  let digits := toString n
  String.mk (List.replicate (6 - digits.length) '0') ++ digits

/-- The 6-digit one-time code for `secret` at 30-second time step `step`.
pyotp computes dynamically-truncated HMAC-SHA1(secret, step) mod 10^6;
modelled as an explicit deterministic pseudo-random function of the
secret's bytes and the step. -/
def totp_code (secret : String) (step : Nat) : String :=
  padTo6 ((strVal secret * 2654435761 + step * 40503 + 7) % 1000000)

/-- Function `verify_totp` from `app/core/security.py` evaluated at time step
`nowStep`: pyotp's `TOTP.verify(token, valid_window=window)` compares the
token string against the codes of the `2*window+1` steps centred on now,
and the surrounding `try/except` turns a malformed secret into `false`. -/
def verify_totp (secret : String) (token : String) (window : Nat) (nowStep : Nat) : Bool :=
  if validBase32Secret secret then
    (List.range (2 * window + 1)).any fun i =>
      token == totp_code secret (nowStep + i - window)
  else false

/-- Bytes that `urllib.parse.quote`/`quote_plus` leave unescaped besides
the caller's `safe` set: ASCII letters, digits, and `_ . - ~`. -/
def urlAlwaysSafe (b : Nat) : Bool :=
  (65 ≤ b && b ≤ 90) || (97 ≤ b && b ≤ 122) || (48 ≤ b && b ≤ 57) ||
    b == 95 || b == 46 || b == 45 || b == 126

/-- Percent escape of one byte, uppercase hex as Python produces. -/
def percentByte (b : Nat) : String :=
  let hex := "0123456789ABCDEF".data
  "%" ++ String.singleton (hex.getD (b / 16) '0') ++ String.singleton (hex.getD (b % 16) '0')

/-- Model of `urllib.parse.quote(s, safe)`: percent-encodes the UTF-8
bytes outside the safe set (the default safe set of `quote` is `/`). -/
def urlQuote (safe : String) (s : String) : String :=
  String.join ((encodeUtf8 s).map fun b =>
    if urlAlwaysSafe b || (encodeUtf8 safe).contains b then String.singleton (Char.ofNat b)
    else percentByte b)

/-- Net query-string escaping of pyotp's `build_uri`: `urlencode` quotes
each value with `quote_plus` (space becomes `+`, a literal plus becomes
`%2B`, other unsafe bytes become `%XX`), and `build_uri` then replaces
every `+` of the urlencoded query with `%20`.  The only `+` characters in
the urlencoded string are the encoded spaces, so per byte: a space ends as
`%20`, a plus as `%2B`, safe bytes stay, the rest are percent-escaped. -/
def urlQueryQuote (s : String) : String :=
  String.join ((encodeUtf8 s).map fun b =>
    if b == 32 then "%20"
    else if urlAlwaysSafe b then String.singleton (Char.ofNat b)
    else percentByte b)

/-- pyotp `TOTP.provisioning_uri(name, issuer_name)` /
`utils.build_uri`: the path label is `quote(issuer) ++ ":" ++ quote(name)`
and the query is `urlencode({"secret": secret, "issuer": issuer})` with
every `+` then replaced by `%20` (the keys `secret`/`issuer` and the
separators contain no space or plus, so the replacement only affects the
quoted values, as `urlQueryQuote` captures); the default
algorithm/digits/period parameters are omitted from the query. -/
def provisioning_uri (secret : String) (name : String) (issuer : String) : String :=
  "otpauth://totp/" ++ urlQuote "/" issuer ++ ":" ++ urlQuote "/" name ++ "?" ++
    "secret=" ++ urlQueryQuote secret ++ "&issuer=" ++ urlQueryQuote issuer

/-- Function `generate_totp_qr_code_uri` from `app/core/security.py`: builds the
provisioning URI for the account with the fixed issuer "Smart Office AI". -/
def generate_totp_qr_code_uri (secret : String) (username : String) : String :=
  provisioning_uri secret username "Smart Office AI"

/-- The `users` table row (`app/models/user.py`): TEXT id, unique email and
username, bcrypt-hashed password, nullable TOTP secret (absence = 2FA
disabled), and active flag. -/
structure User where
  id : String
  email : String
  username : String
  hashed_password : BcryptHash
  totp_secret : Option String
  is_active : Bool
deriving DecidableEq, Repr

/-- An `HTTPException` as raised by the endpoints: status code and detail. -/
structure HttpError where
  status_code : Nat
  detail : String
deriving DecidableEq, Repr

/-- Schema `UserLoginRequest` (`app/schemas/auth.py`): email, password, optional
TOTP code. -/
structure UserLoginRequest where
  email : String
  password : String
  totp_code : Option String
deriving DecidableEq, Repr

/-- Schema `TokenResponse` (`app/schemas/auth.py`). -/
structure TokenResponse where
  access_token : Token
  token_type : String
  expires_in : Nat
deriving DecidableEq, Repr

/-- Schema `UserCreateRequest` (`app/schemas/auth.py`). -/
structure UserCreateRequest where
  email : String
  username : String
  password : String
deriving DecidableEq, Repr

/-- Schema `TOTPEnableRequest` (`app/schemas/auth.py`): the secret from the setup
step plus a current code. -/
structure TOTPEnableRequest where
  secret : String
  code : String
deriving DecidableEq, Repr

/-- Schema `TOTPVerifyRequest` (`app/schemas/auth.py`): just a code. -/
structure TOTPVerifyRequest where
  code : String
deriving DecidableEq, Repr

/-- Schema `TOTPEnableResponse` (`app/schemas/auth.py`). -/
structure TOTPEnableResponse where
  enabled : Bool
  message : String
deriving DecidableEq, Repr

/-- Query `SELECT ... WHERE users.email == e` with `scalar_one_or_none()`. -/
def findByEmail (db : List User) (e : String) : Option User :=
  db.find? fun u => u.email == e

/-- Query `SELECT ... WHERE users.id == i` with `scalar_one_or_none()`. -/
def findById (db : List User) (i : String) : Option User :=
  db.find? fun u => u.id == i

deriving instance DecidableEq for Except

/-- Result of one `login` call: the list of stored hashes that
`verify_password` was invoked against during the attempt (the
instrumentation for the timing-defense property), and the HTTP outcome. -/
structure LoginTrace where
  passwordChecks : List BcryptHash
  result : Except HttpError TokenResponse
deriving DecidableEq, Repr

/-- Endpoint `login` from `app/api/v1/auth.py` evaluated at whole-second Unix time
`now`: one store read by email; a dummy `verify_password` against
`get_password_hash("dummy")` when no user was found, then 401; 401 on
password mismatch; 401 on inactive account; with a stored TOTP secret, 400
when no code was supplied and 401 when the code fails; otherwise a token
with claims `{"sub": id, "email": email}` expiring after the configured
minutes. -/
def login (s : Settings) (db : List User) (credentials : UserLoginRequest) (now : Nat) :
    LoginTrace :=
  match findByEmail db credentials.email with
  | none =>
    let dummy := get_password_hash "dummy"
    let _ := verify_password credentials.password dummy
    ⟨[dummy], .error ⟨401, "Invalid email or password"⟩⟩
  | some user =>
    if !verify_password credentials.password user.hashed_password then
      ⟨[user.hashed_password], .error ⟨401, "Invalid email or password"⟩⟩
    else if !user.is_active then
      ⟨[user.hashed_password], .error ⟨401, "User account is inactive"⟩⟩
    else
      let issue : LoginTrace :=
        ⟨[user.hashed_password],
         .ok ⟨create_access_token s [("sub", user.id), ("email", user.email)]
                (some (s.ACCESS_TOKEN_EXPIRE_MINUTES * 60)) now,
              "bearer", s.ACCESS_TOKEN_EXPIRE_MINUTES * 60⟩⟩
      match user.totp_secret with
      | some secret =>
        match credentials.totp_code with
        | none =>
          ⟨[user.hashed_password],
           .error ⟨400, "TOTP code required. Two-factor authentication is enabled on this account."⟩⟩
        | some code =>
          if !verify_totp secret code 1 (now / 30) then
            ⟨[user.hashed_password], .error ⟨401, "Invalid TOTP code"⟩⟩
          else issue
      | none => issue

/-- Endpoint `register` from `app/api/v1/auth.py`: 400 on duplicate email, then 400
on duplicate username, else a new row with the bcrypt hash of the
password, `is_active=True` and the column default `totp_secret=None`.
`newId` stands for the generated UUID primary key. -/
def register (db : List User) (newId : String) (user_data : UserCreateRequest) :
    Except HttpError User :=
  if (findByEmail db user_data.email).isSome then
    .error ⟨400, "Email already registered"⟩
  else if (db.find? fun u => u.username == user_data.username).isSome then
    .error ⟨400, "Username already taken"⟩
  else
    .ok ⟨newId, user_data.email, user_data.username,
         get_password_hash user_data.password, none, true⟩

/-- Dependency `get_current_user_dep` from `app/api/v1/auth.py`: decode the bearer
token, reject with the same 401 when decoding fails or the payload has no
`"sub"` claim, then look the user up by id and reject unknown or inactive
users. -/
def get_current_user_dep (s : Settings) (db : List User) (token : Token) (now : Nat) :
    Except HttpError User :=
  match decode_access_token s token now with
  | none => .error ⟨401, "Could not validate credentials"⟩
  | some payload =>
    match payload.data.lookup "sub" with
    | none => .error ⟨401, "Could not validate credentials"⟩
    | some user_id =>
      match findById db user_id with
      | none => .error ⟨401, "User not found"⟩
      | some user =>
        if !user.is_active then .error ⟨401, "Inactive user"⟩
        else .ok user

/-- Endpoint `enable_totp` from `app/api/v1/auth.py` at time step `nowStep`: 400 if
a secret is already persisted, 400 if the supplied code does not verify
against the supplied secret, else persist the secret (the returned `User`
is the possibly-updated row). -/
def enable_totp (current_user : User) (totp_data : TOTPEnableRequest) (nowStep : Nat) :
    User × Except HttpError TOTPEnableResponse :=
  if current_user.totp_secret.isSome then
    (current_user, .error ⟨400, "TOTP is already enabled"⟩)
  else if !verify_totp totp_data.secret totp_data.code 1 nowStep then
    (current_user, .error ⟨400, "Invalid TOTP code. Please try again."⟩)
  else
    ({current_user with totp_secret := some totp_data.secret},
     .ok ⟨true, "Two-factor authentication enabled successfully"⟩)

/-- Endpoint `disable_totp` from `app/api/v1/auth.py` at time step `nowStep`: 400 if
no secret is persisted, 401 if the code fails against the persisted
secret, else clear the secret. -/
def disable_totp (current_user : User) (totp_data : TOTPVerifyRequest) (nowStep : Nat) :
    User × Except HttpError TOTPEnableResponse :=
  match current_user.totp_secret with
  | none => (current_user, .error ⟨400, "TOTP is not enabled for this account"⟩)
  | some secret =>
    if !verify_totp secret totp_data.code 1 nowStep then
      (current_user, .error ⟨401, "Invalid TOTP code"⟩)
    else
      ({current_user with totp_secret := none},
       .ok ⟨false, "Two-factor authentication disabled successfully"⟩)

/-- Helper: whenever the email lookup finds a record, the single
`verify_password` call of the attempt is against that record's stored
hash, on every control path of `login`. -/
theorem login_found_checks (s : Settings) (db : List User) (c : UserLoginRequest) (now : Nat)
    (u : User) (hfind : findByEmail db c.email = some u) :
    (login s db c now).passwordChecks = [u.hashed_password] := by
  cases hv : verify_password c.password u.hashed_password <;>
    cases ha : u.is_active <;>
      rcases hts : u.totp_secret with _ | sec <;>
        rcases htc : c.totp_code with _ | code <;>
          (simp [login, hfind, hv, ha, hts, htc]; all_goals (split <;> rfl))

/-- C1: every login attempt performs exactly one password-hash
verification — against the found record's hash, or against the hash of the
fixed dummy password when no record was found — and in the latter case the
attempt is rejected with InvalidCredentials after the dummy check. -/
theorem login_single_password_check (s : Settings) (db : List User) (c : UserLoginRequest)
    (now : Nat) :
    (login s db c now).passwordChecks.length = 1 ∧
    (findByEmail db c.email = none →
      (login s db c now).passwordChecks = [get_password_hash "dummy"] ∧
      (login s db c now).result = .error ⟨401, "Invalid email or password"⟩) ∧
    (∀ u, findByEmail db c.email = some u →
      (login s db c now).passwordChecks = [u.hashed_password]) := by
  cases hfind : findByEmail db c.email with
  | none => simp [login, hfind]
  | some u =>
    refine ⟨?_, by simp [login, hfind], fun v hv => ?_⟩
    · rw [login_found_checks s db c now u hfind]
      rfl
    · cases hv
      exact login_found_checks s db c now u hfind

/-- Witness for C1: with an empty store the dummy hash is checked and the
attempt is rejected; with the user present their stored hash is checked. -/
theorem login_single_password_check_witness :
    (login ⟨"k", "HS256", 30⟩ [] ⟨"a@b.c", "pw", none⟩ 0).passwordChecks
        = [get_password_hash "dummy"] ∧
    (login ⟨"k", "HS256", 30⟩ [] ⟨"a@b.c", "pw", none⟩ 0).result
        = .error ⟨401, "Invalid email or password"⟩ ∧
    (login ⟨"k", "HS256", 30⟩
        [⟨"u1", "a@b.c", "alice", get_password_hash "pw", none, true⟩]
        ⟨"a@b.c", "pw", none⟩ 0).passwordChecks
        = [(⟨"u1", "a@b.c", "alice", get_password_hash "pw", none, true⟩ : User).hashed_password] :=
  ⟨((login_single_password_check ⟨"k", "HS256", 30⟩ [] ⟨"a@b.c", "pw", none⟩ 0).2.1
      (by decide)).1,
   ((login_single_password_check ⟨"k", "HS256", 30⟩ [] ⟨"a@b.c", "pw", none⟩ 0).2.1
      (by decide)).2,
   (login_single_password_check ⟨"k", "HS256", 30⟩
      [⟨"u1", "a@b.c", "alice", get_password_hash "pw", none, true⟩]
      ⟨"a@b.c", "pw", none⟩ 0).2.2
      ⟨"u1", "a@b.c", "alice", get_password_hash "pw", none, true⟩ (by decide)⟩

/-- C2: the TOTP secret is persisted (Enable) or cleared (Disable) only
strictly after the supplied one-time code verifies against the relevant
secret; a failed verification leaves the persisted state unchanged, and in
particular Enable with a non-matching code leaves the secret absent.  The
returned row is either the unchanged input or the single final state, so
no intermediate enrollment state is observable. -/
theorem totp_write_only_after_verify (u : User) (er : TOTPEnableRequest)
    (dr : TOTPVerifyRequest) (step : Nat) :
    (verify_totp er.secret er.code 1 step = false → (enable_totp u er step).1 = u) ∧
    (u.totp_secret = none → verify_totp er.secret er.code 1 step = false →
      (enable_totp u er step).1.totp_secret = none) ∧
    ((enable_totp u er step).1 ≠ u →
      u.totp_secret = none ∧ verify_totp er.secret er.code 1 step = true ∧
      (enable_totp u er step).1.totp_secret = some er.secret) ∧
    (∀ sec, u.totp_secret = some sec → verify_totp sec dr.code 1 step = false →
      (disable_totp u dr step).1 = u) ∧
    ((disable_totp u dr step).1 ≠ u →
      (∃ sec, u.totp_secret = some sec ∧ verify_totp sec dr.code 1 step = true) ∧
      (disable_totp u dr step).1.totp_secret = none) := by
  refine ⟨?_, ?_, ?_, ?_, ?_⟩
  · intro hv
    unfold enable_totp
    split
    · rfl
    · simp [hv]
  · intro h0 hv
    simp [enable_totp, h0, hv]
  · intro hne
    by_cases h1 : u.totp_secret.isSome
    · exact absurd (by simp [enable_totp, h1]) hne
    · by_cases h2 : verify_totp er.secret er.code 1 step = true
      · exact ⟨Option.not_isSome_iff_eq_none.mp h1, h2,
          by simp [enable_totp, h1, h2]⟩
      · exact absurd (by simp [enable_totp, h1, Bool.not_eq_true _ ▸ h2]) hne
  · intro sec hsec hv
    simp [disable_totp, hsec, hv]
  · intro hne
    rcases hs : u.totp_secret with _ | sec
    · exact absurd (by simp [disable_totp, hs]) hne
    · by_cases h2 : verify_totp sec dr.code 1 step = true
      · exact ⟨⟨sec, rfl, h2⟩, by simp [disable_totp, hs, h2]⟩
      · exact absurd (by simp [disable_totp, hs, h2]) hne

/-- Witness for C2: a non-matching code leaves an un-enrolled user
un-enrolled under Enable, and leaves an enrolled user's secret in place
under Disable. -/
theorem totp_write_only_after_verify_witness :
    (enable_totp ⟨"u1", "a@b.c", "alice", get_password_hash "pw", none, true⟩
        ⟨"JBSWY3DPEHPK3PXP", "000000"⟩ 1000).1
      = ⟨"u1", "a@b.c", "alice", get_password_hash "pw", none, true⟩ ∧
    (disable_totp ⟨"u2", "d@e.f", "bob", get_password_hash "pw", some "JBSWY3DPEHPK3PXP", true⟩
        ⟨"000000"⟩ 1000).1
      = ⟨"u2", "d@e.f", "bob", get_password_hash "pw", some "JBSWY3DPEHPK3PXP", true⟩ :=
  ⟨(totp_write_only_after_verify
      ⟨"u1", "a@b.c", "alice", get_password_hash "pw", none, true⟩
      ⟨"JBSWY3DPEHPK3PXP", "000000"⟩ ⟨"000000"⟩ 1000).1 (by decide),
   (totp_write_only_after_verify
      ⟨"u2", "d@e.f", "bob", get_password_hash "pw", some "JBSWY3DPEHPK3PXP", true⟩
      ⟨"JBSWY3DPEHPK3PXP", "000000"⟩ ⟨"000000"⟩ 1000).2.2.2.1
      "JBSWY3DPEHPK3PXP" (by decide) (by decide)⟩

/-- C3: token verification rejects exactly when the structure is
malformed, or the signature does not verify under the process
key/algorithm, or the `exp` claim is at or before the current whole-second
time (equality rejected); and every rejection returns the one opaque
value, indistinguishable across causes. -/
theorem decode_rejects_iff (s : Settings) (t : Token) (now : Nat) :
    (decode_access_token s t now = none ↔
      tokenMalformed t = true ∨ signatureOk s t = false ∨ tokenExpired t now = true) ∧
    (∀ t2 now2, decode_access_token s t2 now2 = none →
      decode_access_token s t2 now2 = decode_access_token s (.malformed "") 0) := by
  constructor
  · cases t with
    | malformed str =>
      simp [decode_access_token, jwt_decode, tokenMalformed]
    | wellFormed alg payload sig =>
      obtain ⟨dat, exp⟩ := payload
      simp only [decode_access_token, jwt_decode, tokenMalformed, signatureOk, tokenExpired]
      by_cases hsig :
          ([s.JWT_ALGORITHM].contains alg
            && sig == Signature.mk s.JWT_SECRET_KEY alg (Payload.mk dat exp)) = true
      · cases exp with
        | none => simp [hsig]
        | some e =>
          by_cases he : e ≤ now
          · simp [hsig, he]
          · simp [hsig, he]
      · rw [if_neg hsig]
        simp only [Bool.eq_false_iff]
        cases exp with
        | none =>
          simp
          intro h1 h2
          exact hsig (by simp [h1, h2])
        | some e =>
          simp
          exact Or.inl fun h1 h2 => hsig (by simp [h1, h2])
  · intro t2 now2 h2
    rw [h2]
    rfl

/-- Witness for C3: a rejected token yields the very same opaque value as
any other rejection. -/
theorem decode_rejects_iff_witness :
    decode_access_token ⟨"k", "HS256", 30⟩ (.malformed "y") 5
      = decode_access_token ⟨"k", "HS256", 30⟩ (.malformed "") 0 :=
  (decode_rejects_iff ⟨"k", "HS256", 30⟩ (.malformed "x") 0).2 (.malformed "y") 5 (by decide)

/-- C4: a token issued with a 30-minute ttl decodes, immediately after
issuance, to the issued claims extended with `exp = issuance + 30
minutes`, and decoding at any time at or past `issuance + 30 minutes`
returns the opaque invalid value. -/
theorem issued_token_roundtrip (s : Settings) (data : List (String × String)) (now t : Nat)
    (h : now + 30 * 60 ≤ t) :
    decode_access_token s (create_access_token s data (some (30 * 60)) now) now
      = some ⟨data, some (now + 30 * 60)⟩ ∧
    decode_access_token s (create_access_token s data (some (30 * 60)) now) t = none := by
  constructor
  · simp [decode_access_token, jwt_decode, create_access_token, jwt_encode]
  · simp [decode_access_token, jwt_decode, create_access_token, jwt_encode, h]

/-- Witness for C4 at concrete claims, key and times. -/
theorem issued_token_roundtrip_witness :
    decode_access_token ⟨"k", "HS256", 30⟩
        (create_access_token ⟨"k", "HS256", 30⟩ [("sub", "u1"), ("email", "a@b.c")]
          (some (30 * 60)) 1000) 1000
      = some ⟨[("sub", "u1"), ("email", "a@b.c")], some (1000 + 30 * 60)⟩ ∧
    decode_access_token ⟨"k", "HS256", 30⟩
        (create_access_token ⟨"k", "HS256", 30⟩ [("sub", "u1"), ("email", "a@b.c")]
          (some (30 * 60)) 1000) 2800
      = none :=
  issued_token_roundtrip ⟨"k", "HS256", 30⟩ [("sub", "u1"), ("email", "a@b.c")] 1000 2800
    (by decide)

/-- Counterexample for C5: two distinct passwords agreeing on their first
72 bytes — 73 versus 72 copies of the letter a — verify against each
other's hash, because both are truncated to 72 bytes before hashing. -/
theorem verify_distinct_passwords_counterexample :
    String.mk (List.replicate 73 'a') ≠ String.mk (List.replicate 72 'a') ∧
    verify_password (String.mk (List.replicate 73 'a'))
      (get_password_hash (String.mk (List.replicate 72 'a'))) = true := by
  decide

/-- C5 (amended): verification fails whenever the two passwords differ on
their first 72 UTF-8 bytes, the part that survives bcrypt's truncation. -/
theorem verify_rejects_distinct_truncations (p1 p2 : String)
    (h : (encodeUtf8 p1).take 72 ≠ (encodeUtf8 p2).take 72) :
    verify_password p1 (get_password_hash p2) = false := by
  simp [verify_password, get_password_hash, bcrypt_hashpw, bcrypt_checkpw, h]

/-- Witness for the amended C5. -/
theorem verify_rejects_distinct_truncations_witness :
    (encodeUtf8 "a").take 72 ≠ (encodeUtf8 "b").take 72 ∧
    verify_password "a" (get_password_hash "b") = false :=
  ⟨by decide, verify_rejects_distinct_truncations "a" "b" (by decide)⟩

/-- C6: a password of at most 72 bytes verifies against its own hash, and
verification against a structurally invalid hash string returns false
instead of propagating the parsing failure. -/
theorem verify_roundtrip_and_malformed (p bad : String)
    (_h : (encodeUtf8 p).length ≤ 72) :
    verify_password p (get_password_hash p) = true ∧
    verify_password p (BcryptHash.malformed bad) = false :=
  ⟨by simp [verify_password, get_password_hash, bcrypt_hashpw, bcrypt_checkpw], rfl⟩

/-- Witness for C6. -/
theorem verify_roundtrip_and_malformed_witness :
    (encodeUtf8 "secret").length ≤ 72 ∧
    verify_password "secret" (get_password_hash "secret") = true ∧
    verify_password "secret" (BcryptHash.malformed "not-a-valid-hash") = false :=
  ⟨by decide, verify_roundtrip_and_malformed "secret" "not-a-valid-hash" (by decide)⟩

/-- C7: a login with correct password, active account, a stored TOTP
secret and no supplied code yields the explicit TOTP-required signal — a
value distinct from the generic invalid-credentials rejection — and no
credential is issued. -/
theorem login_totp_required_distinct (s : Settings) (db : List User) (c : UserLoginRequest)
    (now : Nat) (u : User)
    (hfind : findByEmail db c.email = some u)
    (hsecret : u.totp_secret.isSome = true)
    (hpw : verify_password c.password u.hashed_password = true)
    (hactive : u.is_active = true)
    (hnocode : c.totp_code = none) :
    (login s db c now).result
      = .error ⟨400, "TOTP code required. Two-factor authentication is enabled on this account."⟩ ∧
    (login s db c now).result ≠ .error ⟨401, "Invalid email or password"⟩ ∧
    ∀ tr, (login s db c now).result ≠ .ok tr := by
  obtain ⟨sec, hsec⟩ := Option.isSome_iff_exists.mp hsecret
  simp [login, hfind, hpw, hactive, hsec, hnocode]

/-- Witness for C7. -/
theorem login_totp_required_distinct_witness :
    (login ⟨"k", "HS256", 30⟩
        [⟨"u1", "a@b.c", "alice", get_password_hash "pw", some "JBSWY3DPEHPK3PXP", true⟩]
        ⟨"a@b.c", "pw", none⟩ 0).result
      = .error ⟨400, "TOTP code required. Two-factor authentication is enabled on this account."⟩ :=
  (login_totp_required_distinct ⟨"k", "HS256", 30⟩
    [⟨"u1", "a@b.c", "alice", get_password_hash "pw", some "JBSWY3DPEHPK3PXP", true⟩]
    ⟨"a@b.c", "pw", none⟩ 0
    ⟨"u1", "a@b.c", "alice", get_password_hash "pw", some "JBSWY3DPEHPK3PXP", true⟩
    (by decide) (by decide) (by decide) (by decide) (by decide)).1

set_option maxRecDepth 40000 in
/-- Counterexample for C8: the label segment of the produced provisioning
URI is not the account label alone — for account alice it is the
percent-encoded issuer, a colon, then alice. -/
theorem provisioning_uri_label_counterexample :
    generate_totp_qr_code_uri "JBSWY3DPEHPK3PXP" "alice"
      = "otpauth://totp/Smart%20Office%20AI:alice?secret=JBSWY3DPEHPK3PXP&issuer=Smart%20Office%20AI" ∧
    (generate_totp_qr_code_uri "JBSWY3DPEHPK3PXP" "alice").take 20 ≠ "otpauth://totp/alice" := by
  decide

/-- C8 (amended): the provisioning URI has the form
`otpauth://totp/<quotedIssuer>:<quotedLabel>?secret=<secret>&issuer=<quotedIssuer>`,
where the issuer of this deployment is Smart Office AI and the quoting is
URL escaping with spaces as `%20` both in the path label and in the query
(the query is urlencoded and its plus signs are then rewritten to `%20`). -/
theorem provisioning_uri_format (secret username : String) :
    generate_totp_qr_code_uri secret username
      = "otpauth://totp/" ++ "Smart%20Office%20AI" ++ ":" ++ urlQuote "/" username ++ "?" ++
        "secret=" ++ urlQueryQuote secret ++ "&issuer=" ++ "Smart%20Office%20AI" := by
  have h1 : urlQuote "/" "Smart Office AI" = "Smart%20Office%20AI" := by decide
  have h2 : urlQueryQuote "Smart Office AI" = "Smart%20Office%20AI" := by decide
  unfold generate_totp_qr_code_uri provisioning_uri
  rw [h1, h2]

/-- C9: a token that decodes successfully (well signed and unexpired) but
whose payload has no sub claim is rejected by the current-user dependency
with the very same unauthorized error as an invalid token, and no user is
resolved. -/
theorem missing_sub_claim_rejected (s : Settings) (db : List User) (t : Token) (now : Nat)
    (p : Payload)
    (hdec : decode_access_token s t now = some p)
    (hsub : p.data.lookup "sub" = none) :
    get_current_user_dep s db t now = .error ⟨401, "Could not validate credentials"⟩ ∧
    ∀ t2, decode_access_token s t2 now = none →
      get_current_user_dep s db t2 now = get_current_user_dep s db t now := by
  constructor
  · simp [get_current_user_dep, hdec, hsub]
  · intro t2 h2
    simp [get_current_user_dep, hdec, hsub, h2]

/-- Witness for C9: a signed, unexpired token carrying only an email claim
is rejected exactly like a malformed token. -/
theorem missing_sub_claim_rejected_witness :
    get_current_user_dep ⟨"k", "HS256", 30⟩ []
        (jwt_encode ⟨[("email", "a@b.c")], some 100⟩ "k" "HS256") 0
      = .error ⟨401, "Could not validate credentials"⟩ ∧
    get_current_user_dep ⟨"k", "HS256", 30⟩ [] (.malformed "x") 0
      = get_current_user_dep ⟨"k", "HS256", 30⟩ []
          (jwt_encode ⟨[("email", "a@b.c")], some 100⟩ "k" "HS256") 0 :=
  ⟨(missing_sub_claim_rejected ⟨"k", "HS256", 30⟩ []
      (jwt_encode ⟨[("email", "a@b.c")], some 100⟩ "k" "HS256") 0
      ⟨[("email", "a@b.c")], some 100⟩ (by decide) (by decide)).1,
   (missing_sub_claim_rejected ⟨"k", "HS256", 30⟩ []
      (jwt_encode ⟨[("email", "a@b.c")], some 100⟩ "k" "HS256") 0
      ⟨[("email", "a@b.c")], some 100⟩ (by decide) (by decide)).2
      (.malformed "x") (by decide)⟩

/-- C10: a user record created by registration starts active, with no TOTP
secret, and stores the bcrypt hash of the submitted password as its
password field. -/
theorem register_initial_state (db : List User) (newId : String) (r : UserCreateRequest)
    (u : User)
    (h : register db newId r = .ok u) :
    u.is_active = true ∧ u.totp_secret = none ∧
    u.hashed_password = get_password_hash r.password := by
  unfold register at h
  split at h
  · exact absurd h (by simp)
  · split at h
    · exact absurd h (by simp)
    · cases h
      exact ⟨rfl, rfl, rfl⟩

/-- Witness for C10. -/
theorem register_initial_state_witness :
    (⟨"u1", "a@b.c", "alice", get_password_hash "pw", none, true⟩ : User).is_active = true ∧
    (⟨"u1", "a@b.c", "alice", get_password_hash "pw", none, true⟩ : User).totp_secret = none ∧
    (⟨"u1", "a@b.c", "alice", get_password_hash "pw", none, true⟩ : User).hashed_password
      = get_password_hash "pw" :=
  register_initial_state [] "u1" ⟨"a@b.c", "alice", "pw"⟩
    ⟨"u1", "a@b.c", "alice", get_password_hash "pw", none, true⟩ (by decide)

end SmartOffice
